import Mathlib

/-!
# 3dtiles: geoid height conversion and ENU/ECEF reference frame

A shallow embedding of `src/GeoidHeight.{h,cpp}` and `src/GeoTransform.{h,cpp}`.

* The C++ `double` is a type parameter `D` in the height-conversion component (the
  code only adds and subtracts heights there), and the real numbers `ℝ` in the
  reference-frame component (exact real arithmetic: `std::sin`, `std::cos`,
  `std::sqrt`, `std::acos` are the real functions).
* `Double` is the IEEE 754 binary64 arithmetic of `+` and `-` (round to nearest, ties
  to even); it instantiates `D` where the rounding of a height matters.
* `std::optional<double>` is `Option D`; a caught `std::exception` is `none`.
* The `void* geoid_` pointer is `Option (Geoid D)`: `none` is `nullptr`.
* Logging (`spdlog`, `fprintf`) and the mutex are not modelled.
-/

namespace GeoidHeight

/-- The `enum class GeoidModel` of `GeoidHeight.h`. -/
inductive GeoidModel where
  | NONE
  | EGM84
  | EGM96
  | EGM2008
  deriving DecidableEq

/-- A loaded `GeographicLib::Geoid` grid. The code uses only its call operator
`(*g)(lat, lon)`; `none` stands for a lookup that throws `std::exception`. -/
structure Geoid (D : Type) where
  /-- The call operator `(*g)(lat, lon)`. -/
  call : D → D → Option D

/-- The private data members of `class GeoidCalculator` (`GeoidHeight.h`, 42-45);
the mutex is not modelled. -/
structure GeoidCalculator (D : Type) where
  /-- Member `bool initialized_ = false`. -/
  initialized_ : Bool
  /-- Member `GeoidModel model_ = GeoidModel::NONE`. -/
  model_ : GeoidModel
  /-- Member `void* geoid_ = nullptr`. -/
  geoid_ : Option (Geoid D)

/-- The state of a default-constructed calculator (`GeoidCalculator() = default`). -/
def GeoidCalculator.fresh (D : Type) : GeoidCalculator D :=
  { initialized_ := false, model_ := GeoidModel.NONE, geoid_ := none }

/-- The outside world as seen by `Initialize`: the `GeographicLib::Geoid` constructor
(`none` when it throws), the process environment read by `std::getenv`, and whether
`_WIN32` is defined. -/
structure World (D : Type) where
  /-- Models `new GeographicLib::Geoid(name, path, true, true)`. -/
  newGeoid : String → String → Option (Geoid D)
  /-- Models `std::getenv`; `none` is a null pointer. -/
  getenv : String → Option String
  /-- Whether the build defines `_WIN32`. -/
  win32 : Bool

/-- `GeoidCalculator::GetDefaultGeoidDataPath` (`GeoidHeight.cpp`, 118-134): a
variable counts only when it is set and its first character is not the terminator. -/
def GetDefaultGeoidDataPath {D : Type} (w : World D) : String :=
  match (w.getenv "GEOGRAPHICLIB_GEOID_PATH").filter (fun p => p ≠ "") with
  | some envPath => envPath
  | none =>
    match (w.getenv "GEOGRAPHICLIB_DATA").filter (fun p => p ≠ "") with
    | some dataPath => dataPath ++ "/geoids"
    | none =>
      if w.win32 then "C:/ProgramData/GeographicLib/geoids"
      else "/usr/local/share/GeographicLib/geoids"

/-- The grid name chosen by the `switch` of `Initialize` (`GeoidHeight.cpp`, 20-34).
`NONE` never reaches the switch; for it the `default:` branch (`none`) is listed. -/
def geoidName : GeoidModel → Option String
  | GeoidModel.EGM84 => some "egm84-15"
  | GeoidModel.EGM96 => some "egm96-5"
  | GeoidModel.EGM2008 => some "egm2008-5"
  | GeoidModel.NONE => none

/-- `GeoidCalculator::Initialize` (`GeoidHeight.cpp`, 9-67): the returned flag and
the state of the calculator afterwards. -/
def GeoidCalculator.Initialize {D : Type} (w : World D) (c : GeoidCalculator D)
    (model : GeoidModel) (geoidPath : String) : Bool × GeoidCalculator D :=
  if model = GeoidModel.NONE then
    (true, { c with initialized_ := false, model_ := GeoidModel.NONE, geoid_ := none })
  else
    match geoidName model with
    | none => (false, c)
    | some name =>
      let actualPath := if geoidPath = "" then GetDefaultGeoidDataPath w else geoidPath
      match w.newGeoid name actualPath with
      | some g =>
        (true, { c with geoid_ := some g, model_ := model, initialized_ := true })
      | none =>
        (false, { c with initialized_ := false, geoid_ := none })

/-- Accessor `IsInitialized` (`GeoidHeight.h`, 27). -/
def GeoidCalculator.IsInitialized {D : Type} (c : GeoidCalculator D) : Bool :=
  c.initialized_

/-- Accessor `GetModel` (`GeoidHeight.h`, 29). -/
def GeoidCalculator.GetModel {D : Type} (c : GeoidCalculator D) : GeoidModel :=
  c.model_

/-- `GeoidCalculator::GetGeoidHeight` (`GeoidHeight.cpp`, 69-83). -/
def GeoidCalculator.GetGeoidHeight {D : Type} (c : GeoidCalculator D) (lat lon : D) :
    Option D :=
  if (!c.initialized_) || c.geoid_.isNone then none
  else
    match c.geoid_ with
    | some g => g.call lat lon
    | none => none

/-- `GeoidCalculator::ConvertOrthometricToEllipsoidal` (`GeoidHeight.cpp`, 85-91). -/
def GeoidCalculator.ConvertOrthometricToEllipsoidal {D : Type} [Add D]
    (c : GeoidCalculator D) (lat lon orthometricHeight : D) : D :=
  match c.GetGeoidHeight lat lon with
  | some geoidHeight => orthometricHeight + geoidHeight
  | none => orthometricHeight

/-- `GeoidCalculator::ConvertEllipsoidalToOrthometric` (`GeoidHeight.cpp`, 93-99). -/
def GeoidCalculator.ConvertEllipsoidalToOrthometric {D : Type} [Sub D]
    (c : GeoidCalculator D) (lat lon ellipsoidalHeight : D) : D :=
  match c.GetGeoidHeight lat lon with
  | some geoidHeight => ellipsoidalHeight - geoidHeight
  | none => ellipsoidalHeight

/-- `GeoidCalculator::GeoidModelToString` (`GeoidHeight.cpp`, 101-109). -/
def GeoidModelToString : GeoidModel → String
  | GeoidModel.NONE => "none"
  | GeoidModel.EGM84 => "egm84"
  | GeoidModel.EGM96 => "egm96"
  | GeoidModel.EGM2008 => "egm2008"

/-- `GeoidCalculator::StringToGeoidModel` (`GeoidHeight.cpp`, 111-116). -/
def StringToGeoidModel (str : String) : GeoidModel :=
  if str = "egm84" ∨ str = "EGM84" then GeoidModel.EGM84
  else if str = "egm96" ∨ str = "EGM96" then GeoidModel.EGM96
  else if str = "egm2008" ∨ str = "EGM2008" then GeoidModel.EGM2008
  else GeoidModel.NONE

/-- The lower-cased form of a string, as the specification's "case-insensitive"
comparison reads it: every character through `Char.toLower`. -/
def lowerCased (s : String) : String :=
  String.mk (s.data.map Char.toLower)

/-- A sample grid for concrete evaluation: the undulation is `lat + lon` everywhere. -/
def sampleGeoid : Geoid Int :=
  { call := fun lat lon => some (lat + lon) }

/-- A calculator holding `sampleGeoid` as a successfully loaded EGM96 grid. -/
def sampleLoaded : GeoidCalculator Int :=
  { initialized_ := true, model_ := GeoidModel.EGM96, geoid_ := some sampleGeoid }

/-- A world for concrete evaluation: only the grid `egm96-5` can be loaded (it is
`sampleGeoid`), every other load throws, and no environment variable is set. -/
def sampleWorld : World Int :=
  { newGeoid := fun name _ => if name = "egm96-5" then some sampleGeoid else none
    getenv := fun _ => none
    win32 := false }

end GeoidHeight


/-- A three-component vector of doubles (`glm::dvec3`), over the reals. -/
structure dvec3 where
  /-- First component. -/
  x : ℝ
  /-- Second component. -/
  y : ℝ
  /-- Third component. -/
  z : ℝ

/-- A 4x4 matrix of doubles (`glm::dmat4`), over the reals. glm stores columns:
`T[c][r]` of the source is the entry in row `r`, column `c` here. -/
abbrev dmat4 : Type := Matrix (Fin 4) (Fin 4) ℝ

namespace glm

/-- The library call `glm::inverse` on a `dmat4`, in exact real arithmetic: glm computes
the matrix of cofactors and multiplies it by `1 / determinant`. -/
noncomputable def inverse (m : dmat4) : dmat4 :=
  (1 / m.det) • m.adjugate

end glm

/-- An `OGRCoordinateTransformation` object of GDAL. The code uses only
`Transform(1, &x, &y, &z)`, which rewrites one point in place; its status result is
ignored by the code. -/
structure OGRCoordinateTransformation where
  /-- The point left in `x, y, z` by `Transform(1, &x, &y, &z)`. -/
  Transform : dvec3 → dvec3

/-- The source CRS handed to `OGRCreateCoordinateTransformation` by
`EnsureThreadTransform`: imported from an EPSG code or from a WKT string. -/
inductive SourceCrs where
  | epsg (code : Int)
  | wkt (text : String)

/-- The static data members of `class GeoTransform` (`GeoTransform.h`, 24-39). The
`thread_local` handle `pOgrCT` is one optional handle per thread, indexed by a thread
number. -/
structure GeoTransform where
  /-- Member `thread_local std::unique_ptr<OGRCoordinateTransformation> pOgrCT`. -/
  pOgrCT : Nat → Option OGRCoordinateTransformation
  /-- Member `double OriginX`. -/
  OriginX : ℝ
  /-- Member `double OriginY`. -/
  OriginY : ℝ
  /-- Member `double OriginZ`. -/
  OriginZ : ℝ
  /-- Member `double GeoOriginLon`. -/
  GeoOriginLon : ℝ
  /-- Member `double GeoOriginLat`. -/
  GeoOriginLat : ℝ
  /-- Member `double GeoOriginHeight`. -/
  GeoOriginHeight : ℝ
  /-- Member `bool IsENU`. -/
  IsENU : Bool
  /-- Member `glm::dmat4 EcefToEnuMatrix`. -/
  EcefToEnuMatrix : dmat4
  /-- Member `int SourceEPSG_`. -/
  SourceEPSG_ : Int
  /-- Member `std::string SourceWKT_`. -/
  SourceWKT_ : String
  /-- Member `bool GlobalInitialized_`. -/
  GlobalInitialized_ : Bool

namespace GeoTransform

open GeoidHeight

/-- The values of the static members at program start (`GeoTransform.h`, 24-39). -/
def initial : GeoTransform :=
  { pOgrCT := fun _ => none
    OriginX := 0, OriginY := 0, OriginZ := 0
    GeoOriginLon := 0, GeoOriginLat := 0, GeoOriginHeight := 0
    IsENU := false
    EcefToEnuMatrix := 1
    SourceEPSG_ := 0
    SourceWKT_ := ""
    GlobalInitialized_ := false }

/-- C boundary function `get_geoid_height` (`GeoTransform.cpp`, 13-16), reading the
global calculator `g`. -/
def get_geoid_height {D : Type} [Zero D] (g : GeoidCalculator D) (lat lon : D) : D :=
  (g.GetGeoidHeight lat lon).getD 0

/-- C boundary function `orthometric_to_ellipsoidal` (`GeoTransform.cpp`, 18-20). -/
def orthometric_to_ellipsoidal {D : Type} [Add D] (g : GeoidCalculator D)
    (lat lon orthometric_height : D) : D :=
  g.ConvertOrthometricToEllipsoidal lat lon orthometric_height

/-- C boundary function `ellipsoidal_to_orthometric` (`GeoTransform.cpp`, 22-24). -/
def ellipsoidal_to_orthometric {D : Type} [Sub D] (g : GeoidCalculator D)
    (lat lon ellipsoidal_height : D) : D :=
  g.ConvertEllipsoidalToOrthometric lat lon ellipsoidal_height

/-- C boundary function `is_geoid_initialized` (`GeoTransform.cpp`, 26-28). -/
def is_geoid_initialized {D : Type} (g : GeoidCalculator D) : Bool :=
  g.IsInitialized

/-- C boundary function `get_geo_origin_height` (`GeoTransform.cpp`, 30-32). -/
def get_geo_origin_height (s : GeoTransform) : ℝ :=
  s.GeoOriginHeight

/-- `GeoTransform::CalcEnuToEcefMatrix` (`GeoTransform.cpp`, 34-64). The four glm
columns `T[0..3]` are `east, north, up` (fourth component 0) and `(x0, y0, z0, 1)`. -/
noncomputable def CalcEnuToEcefMatrix (lnt lat height_min : ℝ) : dmat4 :=
  let pi : ℝ := Real.arccos (-1.0)
  let a : ℝ := 6378137.0
  let f : ℝ := 1.0 / 298.257223563
  let e2 : ℝ := f * (2.0 - f)
  let lon : ℝ := lnt * pi / 180.0
  let phi : ℝ := lat * pi / 180.0
  let sinPhi : ℝ := Real.sin phi
  let cosPhi : ℝ := Real.cos phi
  let sinLon : ℝ := Real.sin lon
  let cosLon : ℝ := Real.cos lon
  let N : ℝ := a / Real.sqrt (1.0 - e2 * sinPhi * sinPhi)
  let x0 : ℝ := (N + height_min) * cosPhi * cosLon
  let y0 : ℝ := (N + height_min) * cosPhi * sinLon
  let z0 : ℝ := (N * (1.0 - e2) + height_min) * sinPhi
  let east : dvec3 := ⟨-sinLon, cosLon, 0.0⟩
  let north : dvec3 := ⟨-sinPhi * cosLon, -sinPhi * sinLon, cosPhi⟩
  let up : dvec3 := ⟨cosPhi * cosLon, cosPhi * sinLon, sinPhi⟩
  !![east.x, north.x, up.x, x0;
     east.y, north.y, up.y, y0;
     east.z, north.z, up.z, z0;
     0.0, 0.0, 0.0, 1.0]

/-- `GeoTransform::CartographicToEcef` (`GeoTransform.cpp`, 66-85). -/
noncomputable def CartographicToEcef (lnt lat height : ℝ) : dvec3 :=
  let pi : ℝ := Real.arccos (-1.0)
  let a : ℝ := 6378137.0
  let f : ℝ := 1.0 / 298.257223563
  let e2 : ℝ := f * (2.0 - f)
  let lon : ℝ := lnt * pi / 180.0
  let phi : ℝ := lat * pi / 180.0
  let sinPhi : ℝ := Real.sin phi
  let cosPhi : ℝ := Real.cos phi
  let sinLon : ℝ := Real.sin lon
  let cosLon : ℝ := Real.cos lon
  let N : ℝ := a / Real.sqrt (1.0 - e2 * sinPhi * sinPhi)
  let x : ℝ := (N + height) * cosPhi * cosLon
  let y : ℝ := (N + height) * cosPhi * sinLon
  let z : ℝ := (N * (1.0 - e2) + height) * sinPhi
  ⟨x, y, z⟩

/-- `GeoTransform::Init` (`GeoTransform.cpp`, 87-125), called on thread `tid` with the
handle `pOgrCT` (`none` is a null pointer) and the array `Origin[0..2]`, while the
global geoid calculator is in state `g`. -/
noncomputable def Init (g : GeoidCalculator ℝ) (s : GeoTransform) (tid : Nat)
    (pOgrCT : Option OGRCoordinateTransformation) (Origin : dvec3) : GeoTransform :=
  let origin : dvec3 := ⟨Origin.x, Origin.y, Origin.z⟩
  let origin_cartographic : dvec3 :=
    match pOgrCT with
    | some ct => ct.Transform origin
    | none => origin
  let final_height : ℝ :=
    if is_geoid_initialized g then
      orthometric_to_ellipsoidal g origin_cartographic.y origin_cartographic.x
        origin_cartographic.z
    else origin_cartographic.z
  let EnuToEcefMatrix : dmat4 :=
    CalcEnuToEcefMatrix origin_cartographic.x origin_cartographic.y final_height
  { s with
    pOgrCT := Function.update s.pOgrCT tid pOgrCT
    OriginX := Origin.x
    OriginY := Origin.y
    OriginZ := Origin.z
    IsENU := false
    GeoOriginLon := origin_cartographic.x
    GeoOriginLat := origin_cartographic.y
    GeoOriginHeight := final_height
    EcefToEnuMatrix := glm.inverse EnuToEcefMatrix
    GlobalInitialized_ := true }

/-- `GeoTransform::EnsureThreadTransform` (`GeoTransform.cpp`, 127-155), called on
thread `tid`. `createCT` models `OGRCreateCoordinateTransformation(&inRs, &outRs)`
towards EPSG:4326 in traditional axis order; `none` is a null result. -/
def EnsureThreadTransform (createCT : SourceCrs → Option OGRCoordinateTransformation)
    (s : GeoTransform) (tid : Nat) : GeoTransform :=
  if (s.pOgrCT tid).isSome then s
  else if !s.GlobalInitialized_ then s
  else if s.IsENU then s
  else
    let inRs : Option SourceCrs :=
      if s.SourceEPSG_ > 0 then some (SourceCrs.epsg s.SourceEPSG_)
      else if s.SourceWKT_ ≠ "" then some (SourceCrs.wkt s.SourceWKT_)
      else none
    match inRs with
    | none => s
    | some crs =>
      match createCT crs with
      | some poCT => { s with pOgrCT := Function.update s.pOgrCT tid (some poCT) }
      | none => s

/-- `GeoTransform::SetGeographicOrigin` (`GeoTransform.cpp`, 157-169). -/
noncomputable def SetGeographicOrigin (s : GeoTransform) (lon lat height : ℝ) :
    GeoTransform :=
  let EnuToEcefMatrix : dmat4 := CalcEnuToEcefMatrix lon lat height
  { s with
    GeoOriginLon := lon
    GeoOriginLat := lat
    GeoOriginHeight := height
    IsENU := true
    EcefToEnuMatrix := glm.inverse EnuToEcefMatrix }

/-- One call on the global origin state: `Init` (with the state `g` of the global geoid
calculator at the time of the call), `SetGeographicOrigin` or `EnsureThreadTransform`. -/
inductive Call where
  | Init (g : GeoidCalculator ℝ) (tid : Nat) (pOgrCT : Option OGRCoordinateTransformation)
      (Origin : dvec3)
  | SetGeographicOrigin (lon lat height : ℝ)
  | EnsureThreadTransform (tid : Nat)

/-- Whether the call is one of the two that write the geographic origin. -/
def Call.setsOrigin : Call → Bool
  | Call.Init _ _ _ _ => true
  | Call.SetGeographicOrigin _ _ _ => true
  | Call.EnsureThreadTransform _ => false

/-- The state after one call. -/
noncomputable def step (createCT : SourceCrs → Option OGRCoordinateTransformation)
    (s : GeoTransform) : Call → GeoTransform
  | Call.Init g tid pOgrCT Origin => Init g s tid pOgrCT Origin
  | Call.SetGeographicOrigin lon lat height => SetGeographicOrigin s lon lat height
  | Call.EnsureThreadTransform tid => EnsureThreadTransform createCT s tid

/-- The state after a sequence of calls, first call first. -/
noncomputable def run (createCT : SourceCrs → Option OGRCoordinateTransformation)
    (s : GeoTransform) (calls : List Call) : GeoTransform :=
  calls.foldl (step createCT) s

/-- The shape of the matrix built by `CalcEnuToEcefMatrix`, as a function of the four
trigonometric values and the translation (used in proofs only). -/
def enuFrame (sinLon cosLon sinPhi cosPhi x0 y0 z0 : ℝ) : dmat4 :=
  !![-sinLon, -sinPhi * cosLon, cosPhi * cosLon, x0;
     cosLon, -sinPhi * sinLon, cosPhi * sinLon, y0;
     0, cosPhi, sinPhi, z0;
     0, 0, 0, 1]

/-- The transposed rotation of `enuFrame` with the back-rotated, negated translation
(used in proofs only). -/
def enuFrameInv (sinLon cosLon sinPhi cosPhi x0 y0 z0 : ℝ) : dmat4 :=
  !![-sinLon, cosLon, 0, -(-sinLon * x0 + cosLon * y0);
     -sinPhi * cosLon, -sinPhi * sinLon, cosPhi,
       -(-sinPhi * cosLon * x0 + -sinPhi * sinLon * y0 + cosPhi * z0);
     cosPhi * cosLon, cosPhi * sinLon, sinPhi,
       -(cosPhi * cosLon * x0 + cosPhi * sinLon * y0 + sinPhi * z0);
     0, 0, 0, 1]

/-- A real-valued grid for concrete evaluation: the undulation is 5 everywhere. -/
def flatGeoid : Geoid ℝ :=
  { call := fun _ _ => some 5 }

/-- A calculator over the reals holding `flatGeoid` as a loaded EGM96 grid. -/
def flatLoaded : GeoidCalculator ℝ :=
  { initialized_ := true, model_ := GeoidModel.EGM96, geoid_ := some flatGeoid }

/-- A transform creator for concrete evaluation that always fails. -/
def noCT : SourceCrs → Option OGRCoordinateTransformation :=
  fun _ => none

/-- A transform for concrete evaluation: it swaps the first two coordinates. -/
def swapCT : OGRCoordinateTransformation :=
  { Transform := fun p => ⟨p.y, p.x, p.z⟩ }

/-- A call sequence for concrete evaluation: a worker thread asks for its transform,
the origin is set directly, and the worker thread asks again. -/
noncomputable def sampleCalls : List Call :=
  [Call.EnsureThreadTransform 1, Call.SetGeographicOrigin 0 0 0,
    Call.EnsureThreadTransform 1]

end GeoTransform

/-! ## The arithmetic of the C++ `double` -/

/-- Round a rational to the nearest integer, ties to the even integer. -/
def roundHalfEven (q : ℚ) : ℤ :=
  if q - ⌊q⌋ < 1 / 2 then ⌊q⌋
  else if 1 / 2 < q - ⌊q⌋ then ⌊q⌋ + 1
  else if ⌊q⌋ % 2 = 0 then ⌊q⌋
  else ⌊q⌋ + 1

/-- The values of an IEEE 754 binary64 number, the C++ `double` on the platforms the
code targets: a finite rational, an infinity or a NaN. The two signed zeros are one
value (they compare equal in C++). -/
inductive Double where
  | finite (q : ℚ)
  | inf (negative : Bool)
  | nan

namespace Double

/-- The binary exponent that fixes the spacing of doubles around `q`: the exponent of
the binade of `q`, and `-1022` in the subnormal range. -/
def exponent (q : ℚ) : ℤ :=
  max (Int.log 2 |q|) (-1022)

/-- Rounding of the exact result `q` to 53 significant bits, round to nearest, ties to
even (the default rounding mode), before the overflow check. -/
def roundQ (q : ℚ) : ℚ :=
  roundHalfEven (q / 2 ^ (exponent q - 52)) * 2 ^ (exponent q - 52)

/-- The double delivered for the exact result `q`: the rounded value, or an infinity
when the rounded magnitude reaches `2 ^ 1024`. -/
def ofRat (q : ℚ) : Double :=
  if (2 : ℚ) ^ (1024 : ℕ) ≤ |roundQ q| then inf (decide (roundQ q < 0))
  else finite (roundQ q)

/-- Unary minus on doubles (exact). -/
def neg : Double → Double
  | finite q => finite (-q)
  | inf b => inf (!b)
  | nan => nan

/-- The C++ `+` on doubles: the exact sum, rounded; the usual rules for infinities and
NaN. -/
def add : Double → Double → Double
  | finite a, finite b => ofRat (a + b)
  | finite _, inf b => inf b
  | inf a, finite _ => inf a
  | inf a, inf b => if a = b then inf a else nan
  | nan, _ => nan
  | _, nan => nan

/-- The C++ `-` on doubles: `a - b` is `a + (-b)`. -/
def sub (a b : Double) : Double :=
  add a (neg b)

instance : Add Double := ⟨add⟩

instance : Sub Double := ⟨sub⟩

end Double

namespace GeoidHeight

/-- A grid over doubles for concrete evaluation: the undulation is 1 everywhere. -/
def unitGeoid : Geoid Double :=
  { call := fun _ _ => some (Double.finite 1) }

/-- A calculator over doubles holding `unitGeoid` as a loaded EGM96 grid. -/
def unitLoaded : GeoidCalculator Double :=
  { initialized_ := true, model_ := GeoidModel.EGM96, geoid_ := some unitGeoid }

end GeoidHeight

namespace GeoTransform

/-- The three values of `mode` in the data model of the specification. -/
inductive Mode where
  | Uninitialized
  | DerivedFromExternalTransform
  | DirectlySetGeographic
  deriving DecidableEq

/-- The `mode` of the global origin as the code stores it, in the two flags `IsENU` and
`GlobalInitialized_`: `IsENU` is set by `SetGeographicOrigin` and cleared by `Init`,
`GlobalInitialized_` is set by `Init`. -/
def mode (s : GeoTransform) : Mode :=
  if s.IsENU then Mode.DirectlySetGeographic
  else if s.GlobalInitialized_ then Mode.DerivedFromExternalTransform
  else Mode.Uninitialized

/-- The argument with which `EnsureThreadTransform` (`GeoTransform.cpp`, 127-155) calls
`OGRCreateCoordinateTransformation` on thread `tid`; `none` when the call is not reached
(one of the three early returns, or the final `else return`). -/
def EnsureThreadTransform_request (s : GeoTransform) (tid : Nat) : Option SourceCrs :=
  if (s.pOgrCT tid).isSome then none
  else if !s.GlobalInitialized_ then none
  else if s.IsENU then none
  else if s.SourceEPSG_ > 0 then some (SourceCrs.epsg s.SourceEPSG_)
  else if s.SourceWKT_ ≠ "" then some (SourceCrs.wkt s.SourceWKT_)
  else none

/-- Rows 0 to 2 of column `j` of a 4x4 matrix, as a vector of the geocentric frame. -/
def column3 (m : dmat4) (j : Fin 4) : Fin 3 → ℝ :=
  ![m 0 j, m 1 j, m 2 j]

/-- The first glm column `T[0]` of `CalcEnuToEcefMatrix`, rows 0 to 2: the vector
`east` of the source. -/
noncomputable def East (lnt lat height : ℝ) : Fin 3 → ℝ :=
  column3 (CalcEnuToEcefMatrix lnt lat height) 0

/-- The second glm column `T[1]` of `CalcEnuToEcefMatrix`, rows 0 to 2: the vector
`north` of the source. -/
noncomputable def North (lnt lat height : ℝ) : Fin 3 → ℝ :=
  column3 (CalcEnuToEcefMatrix lnt lat height) 1

/-- The third glm column `T[2]` of `CalcEnuToEcefMatrix`, rows 0 to 2: the vector `up`
of the source. -/
noncomputable def Up (lnt lat height : ℝ) : Fin 3 → ℝ :=
  column3 (CalcEnuToEcefMatrix lnt lat height) 2

/-- The upper-left 3x3 block of a 4x4 matrix. -/
def block3 (m : dmat4) : Matrix (Fin 3) (Fin 3) ℝ :=
  !![m 0 0, m 0 1, m 0 2;
     m 1 0, m 1 1, m 1 2;
     m 2 0, m 2 1, m 2 2]

/-- A state for concrete evaluation: initialised through `Init`, source CRS EPSG:4547,
and thread 1 already owning the handle `swapCT`. -/
def sampleOwned : GeoTransform :=
  { initial with
    pOgrCT := fun tid => if tid = 1 then some swapCT else none
    SourceEPSG_ := 4547
    GlobalInitialized_ := true }

end GeoTransform

/-! ## Height conversion: theorems -/

namespace GeoidHeight

theorem GetGeoidHeight_eq_none_of_uninitialized {D : Type} (c : GeoidCalculator D)
    (h : c.initialized_ = false ∨ c.geoid_ = none) (lat lon : D) :
    c.GetGeoidHeight lat lon = none := by
  unfold GeoidCalculator.GetGeoidHeight
  rcases h with h | h <;> simp [h]

/-- C1: whenever `GetGeoidHeight lat lon` yields an undulation `u`, the orthometric to
ellipsoidal conversion of `H` is `H + u` and the ellipsoidal to orthometric conversion
of `H` is `H - u`, in every calculator state and for every arithmetic on heights. -/
theorem convert_eq_of_GetGeoidHeight_some {D : Type} [Add D] [Sub D]
    (c : GeoidCalculator D) (lat lon H u : D) (h : c.GetGeoidHeight lat lon = some u) :
    c.ConvertOrthometricToEllipsoidal lat lon H = H + u ∧
      c.ConvertEllipsoidalToOrthometric lat lon H = H - u := by
  simp [GeoidCalculator.ConvertOrthometricToEllipsoidal,
    GeoidCalculator.ConvertEllipsoidalToOrthometric, h]

/-- Witness for C1: the loaded sample grid at latitude 1, longitude 2 yields the
undulation 3, so height 10 converts to 13 and to 7. -/
theorem convert_eq_of_GetGeoidHeight_some_witness :
    sampleLoaded.GetGeoidHeight 1 2 = some 3 ∧
      (sampleLoaded.ConvertOrthometricToEllipsoidal 1 2 10 = 10 + 3 ∧
        sampleLoaded.ConvertEllipsoidalToOrthometric 1 2 10 = 10 - 3) :=
  ⟨by decide, convert_eq_of_GetGeoidHeight_some sampleLoaded 1 2 10 3 (by decide)⟩

/-- C2: when the height model is uninitialized (the initialized flag is false or no
grid is loaded), both conversions return the input height `H` unchanged. -/
theorem convert_passthrough_of_uninitialized {D : Type} [Add D] [Sub D]
    (c : GeoidCalculator D) (h : c.initialized_ = false ∨ c.geoid_ = none)
    (lat lon H : D) :
    c.ConvertOrthometricToEllipsoidal lat lon H = H ∧
      c.ConvertEllipsoidalToOrthometric lat lon H = H := by
  simp [GeoidCalculator.ConvertOrthometricToEllipsoidal,
    GeoidCalculator.ConvertEllipsoidalToOrthometric,
    GetGeoidHeight_eq_none_of_uninitialized c h]

/-- Witness for C2: a freshly constructed calculator is uninitialized and passes the
height 10 through at latitude 1, longitude 2. -/
theorem convert_passthrough_of_uninitialized_witness :
    ((GeoidCalculator.fresh Int).initialized_ = false ∨
        (GeoidCalculator.fresh Int).geoid_ = none) ∧
      ((GeoidCalculator.fresh Int).ConvertOrthometricToEllipsoidal 1 2 10 = 10 ∧
        (GeoidCalculator.fresh Int).ConvertEllipsoidalToOrthometric 1 2 10 = 10) :=
  ⟨Or.inl rfl, convert_passthrough_of_uninitialized (GeoidCalculator.fresh Int)
    (Or.inl rfl) 1 2 10⟩

/-- C3, counterexample: the mixed-case spelling `Egm96` has the lower-cased form
`egm96`, yet `StringToGeoidModel` maps it to `NONE`, not to `EGM96`. -/
theorem StringToGeoidModel_mixed_case_counterexample :
    lowerCased "Egm96" = "egm96" ∧
      StringToGeoidModel "Egm96" = GeoidModel.NONE ∧
      StringToGeoidModel "Egm96" ≠ GeoidModel.EGM96 := by
  decide

/-- C3, amended: `StringToGeoidModel` recognises exactly the all-lower-case and the
all-upper-case spelling of each of the three names: it returns `EGM84` exactly for
`egm84` and `EGM84`, `EGM96` exactly for `egm96` and `EGM96`, `EGM2008` exactly for
`egm2008` and `EGM2008`, and `NONE` exactly for every other string, so that no other
mix of case is recognised. -/
theorem StringToGeoidModel_exact_spellings (s : String) :
    (StringToGeoidModel s = GeoidModel.EGM84 ↔ (s = "egm84" ∨ s = "EGM84")) ∧
      (StringToGeoidModel s = GeoidModel.EGM96 ↔ (s = "egm96" ∨ s = "EGM96")) ∧
      (StringToGeoidModel s = GeoidModel.EGM2008 ↔ (s = "egm2008" ∨ s = "EGM2008")) ∧
      (StringToGeoidModel s = GeoidModel.NONE ↔
        (s ≠ "egm84" ∧ s ≠ "EGM84" ∧ s ≠ "egm96" ∧ s ≠ "EGM96" ∧ s ≠ "egm2008" ∧
          s ≠ "EGM2008")) := by
  by_cases h1 : s = "egm84" ∨ s = "EGM84"
  · rcases h1 with rfl | rfl <;> decide
  by_cases h2 : s = "egm96" ∨ s = "EGM96"
  · rcases h2 with rfl | rfl <;> decide
  by_cases h3 : s = "egm2008" ∨ s = "EGM2008"
  · rcases h3 with rfl | rfl <;> decide
  have hN : StringToGeoidModel s = GeoidModel.NONE := by
    simp only [StringToGeoidModel, if_neg h1, if_neg h2, if_neg h3]
  rw [hN]
  simp only [not_or] at h1 h2 h3
  simp [h1, h2, h3]

/-- Witness for amended C3: the upper-case spelling `EGM96` is recognised, the
mixed-case spelling `Egm96` is not. -/
theorem StringToGeoidModel_exact_spellings_witness :
    StringToGeoidModel "EGM96" = GeoidModel.EGM96 ∧
      StringToGeoidModel "Egm96" = GeoidModel.NONE :=
  ⟨(StringToGeoidModel_exact_spellings "EGM96").2.1.2 (Or.inr rfl),
    (StringToGeoidModel_exact_spellings "Egm96").2.2.2.2 (by decide)⟩

/-- C10, the code at the failing input: a calculator that has loaded EGM96 and is then
asked for EGM2008, whose load throws, reports failure with the flag cleared and no grid
referenced, but `model_` still reads `EGM96` instead of `NONE`. -/
theorem Initialize_failure_keeps_model :
    ((GeoidCalculator.fresh Int).Initialize sampleWorld GeoidModel.EGM96 "").1 = true ∧
      (let c := ((GeoidCalculator.fresh Int).Initialize sampleWorld GeoidModel.EGM96 "").2
       (c.Initialize sampleWorld GeoidModel.EGM2008 "").1 = false ∧
        (c.Initialize sampleWorld GeoidModel.EGM2008 "").2.initialized_ = false ∧
        (c.Initialize sampleWorld GeoidModel.EGM2008 "").2.geoid_.isNone = true ∧
        (c.Initialize sampleWorld GeoidModel.EGM2008 "").2.model_ = GeoidModel.EGM96 ∧
        (c.Initialize sampleWorld GeoidModel.EGM2008 "").2.model_ ≠
          (GeoidCalculator.fresh Int).model_) := by
  decide

end GeoidHeight

/-! ## Reference frame: theorems -/

namespace GeoTransform

open GeoidHeight

theorem enuFrame_mul_enuFrameInv (sL cL sP cP x0 y0 z0 : ℝ) (hL : sL ^ 2 + cL ^ 2 = 1)
    (hP : sP ^ 2 + cP ^ 2 = 1) :
    enuFrame sL cL sP cP x0 y0 z0 * enuFrameInv sL cL sP cP x0 y0 z0 = 1 := by
  have hL2 : sL ^ 2 = 1 - cL ^ 2 := by linarith
  have hP2 : sP ^ 2 = 1 - cP ^ 2 := by linarith
  ext i j
  fin_cases i <;> fin_cases j <;>
    simp [enuFrame, enuFrameInv, Matrix.mul_apply, Fin.sum_univ_four] <;>
    ring_nf <;> simp only [hL2, hP2] <;> ring

theorem glm_inverse_eq_inv (m : dmat4) : glm.inverse m = m⁻¹ := by
  simp [glm.inverse, Matrix.inv_def, Ring.inverse_eq_inv']

theorem CalcEnuToEcefMatrix_eq_enuFrame (lnt lat h : ℝ) :
    ∃ sL cL sP cP : ℝ, sL ^ 2 + cL ^ 2 = 1 ∧ sP ^ 2 + cP ^ 2 = 1 ∧
      CalcEnuToEcefMatrix lnt lat h =
        enuFrame sL cL sP cP (CartographicToEcef lnt lat h).x
          (CartographicToEcef lnt lat h).y (CartographicToEcef lnt lat h).z := by
  refine ⟨Real.sin (lnt * Real.arccos (-1.0) / 180.0),
    Real.cos (lnt * Real.arccos (-1.0) / 180.0),
    Real.sin (lat * Real.arccos (-1.0) / 180.0),
    Real.cos (lat * Real.arccos (-1.0) / 180.0),
    Real.sin_sq_add_cos_sq _, Real.sin_sq_add_cos_sq _, ?_⟩
  simp only [CalcEnuToEcefMatrix, CartographicToEcef, enuFrame]
  norm_num

theorem CalcEnuToEcefMatrix_isUnit_det (lnt lat h : ℝ) :
    IsUnit (CalcEnuToEcefMatrix lnt lat h).det := by
  obtain ⟨sL, cL, sP, cP, hL, hP, hM⟩ := CalcEnuToEcefMatrix_eq_enuFrame lnt lat h
  rw [hM]
  exact Matrix.isUnit_det_of_right_inverse (enuFrame_mul_enuFrameInv sL cL sP cP _ _ _ hL hP)

theorem glm_inverse_mul_CalcEnuToEcefMatrix (lnt lat h : ℝ) :
    glm.inverse (CalcEnuToEcefMatrix lnt lat h) * CalcEnuToEcefMatrix lnt lat h = 1 := by
  rw [glm_inverse_eq_inv]
  exact Matrix.nonsing_inv_mul _ (CalcEnuToEcefMatrix_isUnit_det lnt lat h)

theorem CalcEnuToEcefMatrix_mul_glm_inverse (lnt lat h : ℝ) :
    CalcEnuToEcefMatrix lnt lat h * glm.inverse (CalcEnuToEcefMatrix lnt lat h) = 1 := by
  rw [glm_inverse_eq_inv]
  exact Matrix.mul_nonsing_inv _ (CalcEnuToEcefMatrix_isUnit_det lnt lat h)

/-- C4: for every longitude, latitude and height, the matrix `CalcEnuToEcefMatrix` is
invertible (it is a unit, its determinant is a unit), and `glm::inverse` of it composed
with it on either side is the 4x4 identity, in exact real arithmetic. -/
theorem CalcEnuToEcefMatrix_inverse_roundtrip (lon lat height : ℝ) :
    IsUnit (CalcEnuToEcefMatrix lon lat height) ∧
      IsUnit (CalcEnuToEcefMatrix lon lat height).det ∧
      glm.inverse (CalcEnuToEcefMatrix lon lat height) * CalcEnuToEcefMatrix lon lat height
        = 1 ∧
      CalcEnuToEcefMatrix lon lat height * glm.inverse (CalcEnuToEcefMatrix lon lat height)
        = 1 :=
  ⟨(Matrix.isUnit_iff_isUnit_det _).2 (CalcEnuToEcefMatrix_isUnit_det lon lat height),
    CalcEnuToEcefMatrix_isUnit_det lon lat height,
    glm_inverse_mul_CalcEnuToEcefMatrix lon lat height,
    CalcEnuToEcefMatrix_mul_glm_inverse lon lat height⟩

/-- C5: for every longitude, latitude and height, the translation column (glm column 3,
rows 0 to 2) of `CalcEnuToEcefMatrix` is `CartographicToEcef` of the same arguments, and
the matrix sends the homogeneous ENU origin `(0, 0, 0, 1)` to that point. -/
theorem CalcEnuToEcefMatrix_translation_eq_CartographicToEcef (lon lat height : ℝ) :
    (⟨CalcEnuToEcefMatrix lon lat height 0 3, CalcEnuToEcefMatrix lon lat height 1 3,
        CalcEnuToEcefMatrix lon lat height 2 3⟩ : dvec3) = CartographicToEcef lon lat height ∧
      (CalcEnuToEcefMatrix lon lat height).mulVec ![0, 0, 0, 1] =
        ![(CartographicToEcef lon lat height).x, (CartographicToEcef lon lat height).y,
          (CartographicToEcef lon lat height).z, 1] := by
  constructor
  · simp [CalcEnuToEcefMatrix, CartographicToEcef]
  · ext i
    fin_cases i <;>
      simp [CalcEnuToEcefMatrix, CartographicToEcef, Matrix.mulVec, Matrix.dotProduct,
        Fin.sum_univ_four]
    norm_num

/-- C6: at longitude 0, latitude 90 degrees, height 0, `CartographicToEcef` returns
`(0, 0, a (1 - f))` with `a = 6378137` and `f = 1 / 298.257223563`, in exact real
arithmetic; that third component is within a millimetre of 6356752.314. -/
theorem CartographicToEcef_north_pole :
    CartographicToEcef 0 90 0 = ⟨0, 0, 6378137 * (1 - 1 / 298.257223563)⟩ ∧
      |(CartographicToEcef 0 90 0).z - 6356752.314| < 0.001 := by
  have hpi : Real.arccos (-1.0) = Real.pi := by
    norm_num [Real.arccos_neg_one]
  have hphi : (90 : ℝ) * Real.pi / 180.0 = Real.pi / 2 := by ring
  have hsq : Real.sqrt (1.0 - 1.0 / 298.257223563 * (2.0 - 1.0 / 298.257223563) * 1 * 1)
      = 1 - 1 / 298.257223563 := by
    have h : (1.0 : ℝ) - 1.0 / 298.257223563 * (2.0 - 1.0 / 298.257223563) * 1 * 1
        = (1 - 1 / 298.257223563) ^ 2 := by ring
    rw [h]
    exact Real.sqrt_sq (by norm_num)
  have hval : CartographicToEcef 0 90 0 = ⟨0, 0, 6378137 * (1 - 1 / 298.257223563)⟩ := by
    simp only [CartographicToEcef, hpi, hphi, Real.sin_pi_div_two, Real.cos_pi_div_two,
      zero_mul, zero_div, Real.sin_zero, Real.cos_zero, hsq]
    norm_num
  refine ⟨hval, ?_⟩
  rw [hval, abs_lt]
  constructor <;> norm_num

theorem consistent_step_of_setsOrigin
    (createCT : SourceCrs → Option OGRCoordinateTransformation) (s : GeoTransform)
    (c : Call) (hc : c.setsOrigin = true) :
    (step createCT s c).EcefToEnuMatrix =
      glm.inverse (CalcEnuToEcefMatrix (step createCT s c).GeoOriginLon
        (step createCT s c).GeoOriginLat (step createCT s c).GeoOriginHeight) := by
  cases c with
  | Init g tid pOgrCT Origin => rfl
  | SetGeographicOrigin lon lat height => rfl
  | EnsureThreadTransform tid => simp [Call.setsOrigin] at hc

theorem EnsureThreadTransform_origin
    (createCT : SourceCrs → Option OGRCoordinateTransformation) (s : GeoTransform)
    (tid : Nat) :
    (EnsureThreadTransform createCT s tid).EcefToEnuMatrix = s.EcefToEnuMatrix ∧
      (EnsureThreadTransform createCT s tid).GeoOriginLon = s.GeoOriginLon ∧
      (EnsureThreadTransform createCT s tid).GeoOriginLat = s.GeoOriginLat ∧
      (EnsureThreadTransform createCT s tid).GeoOriginHeight = s.GeoOriginHeight := by
  unfold EnsureThreadTransform
  split_ifs <;> simp
  all_goals (split <;> simp)

theorem consistent_step
    (createCT : SourceCrs → Option OGRCoordinateTransformation) (s : GeoTransform)
    (c : Call)
    (hs : s.EcefToEnuMatrix =
      glm.inverse (CalcEnuToEcefMatrix s.GeoOriginLon s.GeoOriginLat s.GeoOriginHeight)) :
    (step createCT s c).EcefToEnuMatrix =
      glm.inverse (CalcEnuToEcefMatrix (step createCT s c).GeoOriginLon
        (step createCT s c).GeoOriginLat (step createCT s c).GeoOriginHeight) := by
  cases c with
  | Init g tid pOgrCT Origin => rfl
  | SetGeographicOrigin lon lat height => rfl
  | EnsureThreadTransform tid =>
    obtain ⟨h1, h2, h3, h4⟩ := EnsureThreadTransform_origin createCT s tid
    simp only [step, h1, h2, h3, h4, hs]

theorem consistent_run
    (createCT : SourceCrs → Option OGRCoordinateTransformation) (calls : List Call) :
    ∀ s : GeoTransform,
      s.EcefToEnuMatrix =
        glm.inverse (CalcEnuToEcefMatrix s.GeoOriginLon s.GeoOriginLat s.GeoOriginHeight) →
      (run createCT s calls).EcefToEnuMatrix =
        glm.inverse (CalcEnuToEcefMatrix (run createCT s calls).GeoOriginLon
          (run createCT s calls).GeoOriginLat (run createCT s calls).GeoOriginHeight) := by
  induction calls with
  | nil => intro s hs; exact hs
  | cons c cs ih =>
    intro s hs
    exact ih (step createCT s c) (consistent_step createCT s c hs)

theorem consistent_run_of_setsOrigin
    (createCT : SourceCrs → Option OGRCoordinateTransformation) (calls : List Call) :
    ∀ s : GeoTransform, (∃ c ∈ calls, c.setsOrigin = true) →
      (run createCT s calls).EcefToEnuMatrix =
        glm.inverse (CalcEnuToEcefMatrix (run createCT s calls).GeoOriginLon
          (run createCT s calls).GeoOriginLat (run createCT s calls).GeoOriginHeight) := by
  induction calls with
  | nil => intro s h; simp at h
  | cons c cs ih =>
    intro s h
    by_cases hcs : ∃ d ∈ cs, d.setsOrigin = true
    · exact ih (step createCT s c) hcs
    · have hc : c.setsOrigin = true := by
        obtain ⟨d, hd, hdo⟩ := h
        rcases List.mem_cons.1 hd with rfl | hd
        · exact hdo
        · exact absurd ⟨d, hd, hdo⟩ hcs
      exact consistent_run createCT cs (step createCT s c)
        (consistent_step_of_setsOrigin createCT s c hc)

/-- C7: in every state reached from any starting state by a sequence of `Init`,
`SetGeographicOrigin` and `EnsureThreadTransform` calls that contains at least one
`Init` or `SetGeographicOrigin`, `EcefToEnuMatrix` is `glm::inverse` of
`CalcEnuToEcefMatrix` at the stored geographic origin, and in exact real arithmetic it
is a two-sided inverse of that matrix. -/
theorem EcefToEnuMatrix_inverse_invariant
    (createCT : SourceCrs → Option OGRCoordinateTransformation) (s0 : GeoTransform)
    (calls : List Call) (h : ∃ c ∈ calls, c.setsOrigin = true) :
    (run createCT s0 calls).EcefToEnuMatrix =
        glm.inverse (CalcEnuToEcefMatrix (run createCT s0 calls).GeoOriginLon
          (run createCT s0 calls).GeoOriginLat (run createCT s0 calls).GeoOriginHeight) ∧
      (run createCT s0 calls).EcefToEnuMatrix *
          CalcEnuToEcefMatrix (run createCT s0 calls).GeoOriginLon
            (run createCT s0 calls).GeoOriginLat (run createCT s0 calls).GeoOriginHeight
        = 1 ∧
      CalcEnuToEcefMatrix (run createCT s0 calls).GeoOriginLon
            (run createCT s0 calls).GeoOriginLat (run createCT s0 calls).GeoOriginHeight *
          (run createCT s0 calls).EcefToEnuMatrix
        = 1 := by
  have hinv := consistent_run_of_setsOrigin createCT calls s0 h
  refine ⟨hinv, ?_, ?_⟩
  · rw [hinv]; exact glm_inverse_mul_CalcEnuToEcefMatrix _ _ _
  · rw [hinv]; exact CalcEnuToEcefMatrix_mul_glm_inverse _ _ _

/-- Witness for C7: from the program-start state, a sequence with one
`SetGeographicOrigin` between two `EnsureThreadTransform` calls. -/
theorem EcefToEnuMatrix_inverse_invariant_witness :
    (∃ c ∈ sampleCalls, c.setsOrigin = true) ∧
      ((run noCT initial sampleCalls).EcefToEnuMatrix =
          glm.inverse (CalcEnuToEcefMatrix (run noCT initial sampleCalls).GeoOriginLon
            (run noCT initial sampleCalls).GeoOriginLat
            (run noCT initial sampleCalls).GeoOriginHeight) ∧
        (run noCT initial sampleCalls).EcefToEnuMatrix *
            CalcEnuToEcefMatrix (run noCT initial sampleCalls).GeoOriginLon
              (run noCT initial sampleCalls).GeoOriginLat
              (run noCT initial sampleCalls).GeoOriginHeight
          = 1 ∧
        CalcEnuToEcefMatrix (run noCT initial sampleCalls).GeoOriginLon
              (run noCT initial sampleCalls).GeoOriginLat
              (run noCT initial sampleCalls).GeoOriginHeight *
            (run noCT initial sampleCalls).EcefToEnuMatrix
          = 1) :=
  ⟨⟨Call.SetGeographicOrigin 0 0 0, by simp [sampleCalls], rfl⟩,
    EcefToEnuMatrix_inverse_invariant noCT initial sampleCalls
      ⟨Call.SetGeographicOrigin 0 0 0, by simp [sampleCalls], rfl⟩⟩

/-- C8: for every raw origin `(x, y, z)`, `Init` with a null transform handle while the
height model is uninitialized (flag false or no grid) leaves `GlobalInitialized_` true
and `IsENU` false, the raw origin equal to `(x, y, z)`, the geographic origin equal to
`(x, y, z)` unchanged, and `EcefToEnuMatrix` equal to `glm::inverse` of
`CalcEnuToEcefMatrix x y z`. -/
theorem Init_null_handle_uninitialized_geoid (g : GeoidCalculator ℝ)
    (hg : g.initialized_ = false ∨ g.geoid_ = none) (s : GeoTransform) (tid : Nat)
    (x y z : ℝ) :
    (Init g s tid none ⟨x, y, z⟩).GlobalInitialized_ = true ∧
      (Init g s tid none ⟨x, y, z⟩).IsENU = false ∧
      (Init g s tid none ⟨x, y, z⟩).OriginX = x ∧
      (Init g s tid none ⟨x, y, z⟩).OriginY = y ∧
      (Init g s tid none ⟨x, y, z⟩).OriginZ = z ∧
      (Init g s tid none ⟨x, y, z⟩).GeoOriginLon = x ∧
      (Init g s tid none ⟨x, y, z⟩).GeoOriginLat = y ∧
      (Init g s tid none ⟨x, y, z⟩).GeoOriginHeight = z ∧
      (Init g s tid none ⟨x, y, z⟩).EcefToEnuMatrix =
        glm.inverse (CalcEnuToEcefMatrix x y z) := by
  have hpass : g.ConvertOrthometricToEllipsoidal y x z = z := by
    simp [GeoidCalculator.ConvertOrthometricToEllipsoidal,
      GetGeoidHeight_eq_none_of_uninitialized g hg]
  have hfinal : (if is_geoid_initialized g then orthometric_to_ellipsoidal g y x z else z)
      = z := by
    split_ifs
    · exact hpass
    · rfl
  simp only [Init, hfinal, and_self]

/-- Witness for C8: a freshly constructed calculator, the program-start state, thread 0
and the raw origin `(120, 30, 10)`. -/
theorem Init_null_handle_uninitialized_geoid_witness :
    ((GeoidCalculator.fresh ℝ).initialized_ = false ∨
        (GeoidCalculator.fresh ℝ).geoid_ = none) ∧
      (Init (GeoidCalculator.fresh ℝ) initial 0 none ⟨120, 30, 10⟩).GeoOriginHeight = 10 ∧
      (Init (GeoidCalculator.fresh ℝ) initial 0 none ⟨120, 30, 10⟩).EcefToEnuMatrix =
        glm.inverse (CalcEnuToEcefMatrix 120 30 10) :=
  ⟨Or.inl rfl,
    (Init_null_handle_uninitialized_geoid (GeoidCalculator.fresh ℝ) (Or.inl rfl) initial 0
      120 30 10).2.2.2.2.2.2.2.1,
    (Init_null_handle_uninitialized_geoid (GeoidCalculator.fresh ℝ) (Or.inl rfl) initial 0
      120 30 10).2.2.2.2.2.2.2.2⟩

/-- C9: for every `Init` call made while the height model is initialized, with `p` the
origin after the optional external transform (`p.x` longitude, `p.y` latitude, `p.z`
height): the published `GeoOriginHeight`, also returned by `get_geo_origin_height`, is
`ConvertOrthometricToEllipsoidal p.y p.x p.z`, which is `p.z + u` when the lookup at
latitude `p.y`, longitude `p.x` yields `u` and `p.z` when it yields no value;
`GeoOriginLon` and `GeoOriginLat` are `p.x` and `p.y`; and the matrix is `glm::inverse`
of `CalcEnuToEcefMatrix` at `p.x`, `p.y` and the corrected height. -/
theorem Init_height_correction (g : GeoidCalculator ℝ) (hg : g.IsInitialized = true)
    (s : GeoTransform) (tid : Nat) (pOgrCT : Option OGRCoordinateTransformation)
    (Origin p : dvec3)
    (hp : p = match pOgrCT with
      | some ct => ct.Transform Origin
      | none => Origin) :
    (Init g s tid pOgrCT Origin).GeoOriginHeight =
        g.ConvertOrthometricToEllipsoidal p.y p.x p.z ∧
      get_geo_origin_height (Init g s tid pOgrCT Origin) =
        g.ConvertOrthometricToEllipsoidal p.y p.x p.z ∧
      (∀ u : ℝ, g.GetGeoidHeight p.y p.x = some u →
        (Init g s tid pOgrCT Origin).GeoOriginHeight = p.z + u) ∧
      (g.GetGeoidHeight p.y p.x = none →
        (Init g s tid pOgrCT Origin).GeoOriginHeight = p.z) ∧
      (Init g s tid pOgrCT Origin).GeoOriginLon = p.x ∧
      (Init g s tid pOgrCT Origin).GeoOriginLat = p.y ∧
      (Init g s tid pOgrCT Origin).EcefToEnuMatrix =
        glm.inverse (CalcEnuToEcefMatrix p.x p.y
          (g.ConvertOrthometricToEllipsoidal p.y p.x p.z)) := by
  have hinit : is_geoid_initialized g = true := hg
  have hh : (Init g s tid pOgrCT Origin).GeoOriginHeight =
      g.ConvertOrthometricToEllipsoidal p.y p.x p.z := by
    subst hp
    simp only [Init, hinit, if_true, orthometric_to_ellipsoidal]
  refine ⟨hh, hh, ?_, ?_, ?_, ?_, ?_⟩
  · intro u hu
    rw [hh]
    simp [GeoidCalculator.ConvertOrthometricToEllipsoidal, hu]
  · intro hn
    rw [hh]
    simp [GeoidCalculator.ConvertOrthometricToEllipsoidal, hn]
  · subst hp; rfl
  · subst hp; rfl
  · subst hp
    simp only [Init, hinit, if_true, orthometric_to_ellipsoidal]

/-- Witness for C9: the loaded flat grid (undulation 5), the transform that swaps the
first two coordinates, and the raw origin `(30, 120, 10)`: the origin after the
transform is `(120, 30, 10)` and the published height is `10 + 5`. -/
theorem Init_height_correction_witness :
    flatLoaded.IsInitialized = true ∧
      ((⟨120, 30, 10⟩ : dvec3) = match some swapCT with
        | some ct => ct.Transform ⟨30, 120, 10⟩
        | none => ⟨30, 120, 10⟩) ∧
      flatLoaded.GetGeoidHeight 30 120 = some 5 ∧
      (Init flatLoaded initial 0 (some swapCT) ⟨30, 120, 10⟩).GeoOriginHeight = 10 + 5 :=
  ⟨rfl, rfl, rfl,
    (Init_height_correction flatLoaded rfl initial 0 (some swapCT) ⟨30, 120, 10⟩
      ⟨120, 30, 10⟩ rfl).2.2.1 5 rfl⟩

end GeoTransform

/-! ## Height conversion: further theorems -/

namespace GeoidHeight

/-- C11: for every prior state and every path argument, `Initialize` with the model
`NONE` returns true and leaves the state cleared (flag false, model `NONE`, no grid);
afterwards `GetGeoidHeight` yields no value and both conversions return their input
height unchanged. -/
theorem Initialize_NONE_clears {D : Type} [Add D] [Sub D] (w : World D)
    (c : GeoidCalculator D) (path : String) :
    (c.Initialize w GeoidModel.NONE path).1 = true ∧
      (c.Initialize w GeoidModel.NONE path).2.initialized_ = false ∧
      (c.Initialize w GeoidModel.NONE path).2.model_ = GeoidModel.NONE ∧
      (c.Initialize w GeoidModel.NONE path).2.geoid_ = none ∧
      ∀ lat lon H : D,
        (c.Initialize w GeoidModel.NONE path).2.GetGeoidHeight lat lon = none ∧
        (c.Initialize w GeoidModel.NONE path).2.ConvertOrthometricToEllipsoidal lat lon H
          = H ∧
        (c.Initialize w GeoidModel.NONE path).2.ConvertEllipsoidalToOrthometric lat lon H
          = H := by
  have hflag : (c.Initialize w GeoidModel.NONE path).2.initialized_ = false := by
    simp [GeoidCalculator.Initialize]
  refine ⟨by simp [GeoidCalculator.Initialize], hflag,
    by simp [GeoidCalculator.Initialize], by simp [GeoidCalculator.Initialize], ?_⟩
  intro lat lon H
  have hnone := GetGeoidHeight_eq_none_of_uninitialized
    (c.Initialize w GeoidModel.NONE path).2 (Or.inl hflag) lat lon
  exact ⟨hnone, by simp only [GeoidCalculator.ConvertOrthometricToEllipsoidal, hnone],
    by simp only [GeoidCalculator.ConvertEllipsoidalToOrthometric, hnone]⟩

/-- C12: `GetGeoidHeight lat lon` yields no value exactly when the model is not
initialized (flag false or no grid) or the lookup in the loaded grid raises an error;
with the flag set and a grid `g` loaded it yields exactly the result of the lookup in
`g`. The boundary function `get_geoid_height` returns the value when there is one and 0
when there is none. -/
theorem GetGeoidHeight_none_iff {D : Type} [Zero D] (c : GeoidCalculator D)
    (lat lon : D) :
    (c.GetGeoidHeight lat lon = none ↔
        (c.initialized_ = false ∨ c.geoid_ = none ∨
          ∃ g, c.geoid_ = some g ∧ g.call lat lon = none)) ∧
      (∀ g, c.initialized_ = true → c.geoid_ = some g →
        c.GetGeoidHeight lat lon = g.call lat lon) ∧
      (∀ v, c.GetGeoidHeight lat lon = some v →
        GeoTransform.get_geoid_height c lat lon = v) ∧
      (c.GetGeoidHeight lat lon = none → GeoTransform.get_geoid_height c lat lon = 0) := by
  obtain ⟨i, m, g⟩ := c
  refine ⟨?_, ?_, ?_, ?_⟩
  · cases i <;> cases g <;> simp [GeoidCalculator.GetGeoidHeight]
  · intro g0 hi hg
    simp only at hi hg
    subst hi hg
    simp [GeoidCalculator.GetGeoidHeight]
  · intro v hv
    simp [GeoTransform.get_geoid_height, hv]
  · intro hn
    simp [GeoTransform.get_geoid_height, hn]

/-- Witness for C12: the loaded sample grid at latitude 1, longitude 2 yields 3, and
`get_geoid_height` returns 3. -/
theorem GetGeoidHeight_none_iff_witness :
    sampleLoaded.GetGeoidHeight 1 2 = some 3 ∧
      GeoTransform.get_geoid_height sampleLoaded 1 2 = 3 :=
  ⟨by decide, (GetGeoidHeight_none_iff sampleLoaded 1 2).2.2.1 3 (by decide)⟩

end GeoidHeight

/-! ## Rounding of doubles: evaluation lemmas -/

namespace Double

theorem roundHalfEven_intCast (n : ℤ) : roundHalfEven (n : ℚ) = n := by
  simp [roundHalfEven]

theorem ofRat_zero : ofRat 0 = finite 0 := by
  have hq : roundQ 0 = 0 := by
    simp [roundQ, roundHalfEven]
  simp [ofRat, hq]

theorem exponent_one_add_small : exponent (2 ^ (-60 : ℤ) + 1) = 0 := by
  unfold exponent
  have hpos : (0 : ℚ) < 2 ^ (-60 : ℤ) + 1 := by positivity
  have h1 : (1 : ℚ) ≤ |2 ^ (-60 : ℤ) + 1| := by
    rw [abs_of_pos hpos]; norm_num
  have hfloor : ⌊|(2 : ℚ) ^ (-60 : ℤ) + 1|⌋₊ = 1 := by
    rw [abs_of_pos hpos, Nat.floor_eq_iff hpos.le]
    norm_num
  rw [Int.log_of_one_le_right _ h1, hfloor]
  simp

theorem ofRat_one_add_small : ofRat (2 ^ (-60 : ℤ) + 1) = finite 1 := by
  have hfloor : ⌊((2 : ℚ) ^ (-60 : ℤ) + 1) / 2 ^ ((0 : ℤ) - 52)⌋ = 2 ^ 52 := by
    rw [Int.floor_eq_iff]
    norm_num
  have hq : roundQ (2 ^ (-60 : ℤ) + 1) = 1 := by
    have hlt : ((2 : ℚ) ^ (-60 : ℤ) + 1) / 2 ^ ((0 : ℤ) - 52) - ((2 ^ 52 : ℤ) : ℚ) < 1 / 2 := by
      norm_num
    simp only [roundQ, exponent_one_add_small, roundHalfEven, hfloor, hlt, if_true]
    norm_num
  simp only [ofRat, hq]
  norm_num

theorem ofRat_small : ofRat (2 ^ (-60 : ℤ)) = finite (2 ^ (-60 : ℤ)) := by
  have hexp : exponent (2 ^ (-60 : ℤ)) = -60 := by
    unfold exponent
    rw [abs_of_pos (by positivity)]
    have hlog := Int.log_zpow (R := ℚ) (b := 2) (by norm_num) (-60)
    simp only [Nat.cast_ofNat] at hlog
    rw [hlog]
    decide
  have hq : roundQ (2 ^ (-60 : ℤ)) = 2 ^ (-60 : ℤ) := by
    have hdiv : (2 : ℚ) ^ (-60 : ℤ) / 2 ^ ((-60 : ℤ) - 52) = ((2 ^ 52 : ℤ) : ℚ) := by
      norm_num
    simp only [roundQ, hexp, hdiv, roundHalfEven_intCast]
    norm_num
  have hsmall : ¬ ((2 : ℚ) ^ (1024 : ℕ) ≤ |(2 : ℚ) ^ (-60 : ℤ)|) := by
    rw [abs_of_pos (by positivity)]
    norm_num
  simp only [ofRat, hq, if_neg hsmall]

theorem ofRat_one : ofRat 1 = finite 1 := by
  have hexp : exponent 1 = 0 := by
    simp [exponent, Int.log_one_right]
  have hq : roundQ 1 = 1 := by
    have hdiv : (1 : ℚ) / 2 ^ ((0 : ℤ) - 52) = ((2 ^ 52 : ℤ) : ℚ) := by
      norm_num
    simp only [roundQ, hexp, hdiv, roundHalfEven_intCast]
    norm_num
  have hsmall : ¬ ((2 : ℚ) ^ (1024 : ℕ) ≤ |(1 : ℚ)|) := by
    norm_num
  simp only [ofRat, hq, if_neg hsmall]

theorem ofRat_two : ofRat 2 = finite 2 := by
  have hexp : exponent 2 = 1 := by
    unfold exponent
    rw [abs_of_pos (by norm_num)]
    have hlog := Int.log_zpow (R := ℚ) (b := 2) (by norm_num) 1
    simp only [Nat.cast_ofNat, zpow_one] at hlog
    rw [hlog]
    decide
  have hq : roundQ 2 = 2 := by
    have hdiv : (2 : ℚ) / 2 ^ ((1 : ℤ) - 52) = ((2 ^ 52 : ℤ) : ℚ) := by
      norm_num
    simp only [roundQ, hexp, hdiv, roundHalfEven_intCast]
    norm_num
  have hsmall : ¬ ((2 : ℚ) ^ (1024 : ℕ) ≤ |(2 : ℚ)|) := by
    norm_num
  simp only [ofRat, hq, if_neg hsmall]

end Double

namespace GeoidHeight

/-- C15, counterexample: in double arithmetic, with an initialized model whose lookup
yields the undulation 1, the height `2 ^ (-60)` (a double) converts to the ellipsoidal
height 1 (the exact sum rounds to 1) and back to 0, not to `2 ^ (-60)`. -/
theorem convert_roundtrip_double_counterexample :
    unitLoaded.IsInitialized = true ∧
      unitLoaded.GetGeoidHeight (Double.finite 0) (Double.finite 0) = some (Double.finite 1) ∧
      Double.ofRat (2 ^ (-60 : ℤ)) = Double.finite (2 ^ (-60 : ℤ)) ∧
      unitLoaded.ConvertOrthometricToEllipsoidal (Double.finite 0) (Double.finite 0)
        (Double.finite (2 ^ (-60 : ℤ))) = Double.finite 1 ∧
      unitLoaded.ConvertEllipsoidalToOrthometric (Double.finite 0) (Double.finite 0)
        (unitLoaded.ConvertOrthometricToEllipsoidal (Double.finite 0) (Double.finite 0)
          (Double.finite (2 ^ (-60 : ℤ)))) = Double.finite 0 ∧
      unitLoaded.ConvertEllipsoidalToOrthometric (Double.finite 0) (Double.finite 0)
        (unitLoaded.ConvertOrthometricToEllipsoidal (Double.finite 0) (Double.finite 0)
          (Double.finite (2 ^ (-60 : ℤ)))) ≠ Double.finite (2 ^ (-60 : ℤ)) := by
  have hget : unitLoaded.GetGeoidHeight (Double.finite 0) (Double.finite 0)
      = some (Double.finite 1) := rfl
  have hup : unitLoaded.ConvertOrthometricToEllipsoidal (Double.finite 0) (Double.finite 0)
      (Double.finite (2 ^ (-60 : ℤ))) = Double.finite 1 := by
    simp only [GeoidCalculator.ConvertOrthometricToEllipsoidal, hget]
    exact Double.ofRat_one_add_small
  have hdown : unitLoaded.ConvertEllipsoidalToOrthometric (Double.finite 0) (Double.finite 0)
      (Double.finite 1) = Double.finite 0 := by
    simp only [GeoidCalculator.ConvertEllipsoidalToOrthometric, hget]
    show Double.ofRat (1 + -1) = Double.finite 0
    rw [show (1 : ℚ) + -1 = 0 by norm_num]
    exact Double.ofRat_zero
  refine ⟨rfl, hget, Double.ofRat_small, hup, ?_, ?_⟩
  · rw [hup, hdown]
  · rw [hup, hdown]
    intro h
    have h0 : (0 : ℚ) = 2 ^ (-60 : ℤ) := Double.finite.inj h
    have hpos : (0 : ℚ) < 2 ^ (-60 : ℤ) := by positivity
    exact absurd h0 hpos.ne

/-- C15, amended: in double arithmetic, when the lookup at `(lat, lon)` succeeds with a
finite undulation `u`, for every finite double `h`: if the sum `h + u` is itself a
double (the addition does not round), converting `h` to ellipsoidal and back gives
`h`; and if the difference `h - u` is itself a double, converting `h` to orthometric
and back gives `h`. A rational `q` is a double when `Double.ofRat q` is `finite q`. -/
theorem convert_roundtrip_double_of_exact_sum (c : GeoidCalculator Double)
    (lat lon : Double) (h u : ℚ)
    (hu : c.GetGeoidHeight lat lon = some (Double.finite u))
    (hh : Double.ofRat h = Double.finite h) :
    (Double.ofRat (h + u) = Double.finite (h + u) →
        c.ConvertEllipsoidalToOrthometric lat lon
          (c.ConvertOrthometricToEllipsoidal lat lon (Double.finite h)) = Double.finite h) ∧
      (Double.ofRat (h - u) = Double.finite (h - u) →
        c.ConvertOrthometricToEllipsoidal lat lon
          (c.ConvertEllipsoidalToOrthometric lat lon (Double.finite h)) = Double.finite h) := by
  constructor
  · intro hsum
    have hup : c.ConvertOrthometricToEllipsoidal lat lon (Double.finite h) =
        Double.finite (h + u) := by
      simp only [GeoidCalculator.ConvertOrthometricToEllipsoidal, hu]
      exact hsum
    rw [hup]
    simp only [GeoidCalculator.ConvertEllipsoidalToOrthometric, hu]
    show Double.ofRat (h + u + -u) = Double.finite h
    rw [add_neg_cancel_right]
    exact hh
  · intro hdiff
    have hdown : c.ConvertEllipsoidalToOrthometric lat lon (Double.finite h) =
        Double.finite (h - u) := by
      simp only [GeoidCalculator.ConvertEllipsoidalToOrthometric, hu]
      show Double.ofRat (h + -u) = Double.finite (h - u)
      rw [← sub_eq_add_neg]
      exact hdiff
    rw [hdown]
    simp only [GeoidCalculator.ConvertOrthometricToEllipsoidal, hu]
    show Double.ofRat (h - u + u) = Double.finite h
    rw [sub_add_cancel]
    exact hh

/-- Witness for amended C15: the loaded unit grid (undulation 1) and the height 1; the
sum 2 and the difference 0 are doubles, and both round trips return 1. -/
theorem convert_roundtrip_double_of_exact_sum_witness :
    unitLoaded.GetGeoidHeight (Double.finite 0) (Double.finite 0) = some (Double.finite 1) ∧
      Double.ofRat 1 = Double.finite 1 ∧
      Double.ofRat (1 + 1) = Double.finite (1 + 1) ∧
      Double.ofRat (1 - 1) = Double.finite (1 - 1) ∧
      unitLoaded.ConvertEllipsoidalToOrthometric (Double.finite 0) (Double.finite 0)
        (unitLoaded.ConvertOrthometricToEllipsoidal (Double.finite 0) (Double.finite 0)
          (Double.finite 1)) = Double.finite 1 ∧
      unitLoaded.ConvertOrthometricToEllipsoidal (Double.finite 0) (Double.finite 0)
        (unitLoaded.ConvertEllipsoidalToOrthometric (Double.finite 0) (Double.finite 0)
          (Double.finite 1)) = Double.finite 1 :=
  have h2 : Double.ofRat (1 + 1) = Double.finite (1 + 1) := by
    rw [show (1 : ℚ) + 1 = 2 by norm_num]
    exact Double.ofRat_two
  have h0 : Double.ofRat (1 - 1) = Double.finite (1 - 1) := by
    rw [show (1 : ℚ) - 1 = 0 by norm_num]
    exact Double.ofRat_zero
  ⟨rfl, Double.ofRat_one, h2, h0,
    (convert_roundtrip_double_of_exact_sum unitLoaded (Double.finite 0) (Double.finite 0)
      1 1 rfl Double.ofRat_one).1 h2,
    (convert_roundtrip_double_of_exact_sum unitLoaded (Double.finite 0) (Double.finite 0)
      1 1 rfl Double.ofRat_one).2 h0⟩

/-- In exact arithmetic (heights in an additive group, as the real numbers are), when
the lookup at `(lat, lon)` succeeds with the value `u`, converting `h` to ellipsoidal
and back gives `h`, and likewise in the other order. -/
theorem convert_roundtrip_exact_arithmetic {D : Type} [AddGroup D] (c : GeoidCalculator D)
    (lat lon h u : D) (hu : c.GetGeoidHeight lat lon = some u) :
    c.ConvertEllipsoidalToOrthometric lat lon
        (c.ConvertOrthometricToEllipsoidal lat lon h) = h ∧
      c.ConvertOrthometricToEllipsoidal lat lon
        (c.ConvertEllipsoidalToOrthometric lat lon h) = h := by
  simp [GeoidCalculator.ConvertOrthometricToEllipsoidal,
    GeoidCalculator.ConvertEllipsoidalToOrthometric, hu]

theorem lowerCased_of_StringToGeoidModel_ne_NONE (s : String)
    (h : StringToGeoidModel s ≠ GeoidModel.NONE) :
    lowerCased s = "egm84" ∨ lowerCased s = "egm96" ∨ lowerCased s = "egm2008" := by
  unfold StringToGeoidModel at h
  split_ifs at h with h1 h2 h3
  · rcases h1 with rfl | rfl <;> decide
  · rcases h2 with rfl | rfl <;> decide
  · rcases h3 with rfl | rfl <;> decide
  · exact absurd rfl h

/-- C16: `StringToGeoidModel` is a total function, and every string whose lower-cased
form is none of `egm84`, `egm96`, `egm2008` is mapped to `NONE`; in particular the
empty string and `none` are. -/
theorem StringToGeoidModel_unrecognized (s : String)
    (h : lowerCased s ≠ "egm84" ∧ lowerCased s ≠ "egm96" ∧ lowerCased s ≠ "egm2008") :
    StringToGeoidModel s = GeoidModel.NONE ∧
      StringToGeoidModel "" = GeoidModel.NONE ∧
      StringToGeoidModel "none" = GeoidModel.NONE := by
  refine ⟨?_, by decide, by decide⟩
  by_contra hne
  rcases lowerCased_of_StringToGeoidModel_ne_NONE s hne with h1 | h1 | h1
  · exact h.1 h1
  · exact h.2.1 h1
  · exact h.2.2 h1

/-- Witness for C16: the string `wgs84` is not a recognized name. -/
theorem StringToGeoidModel_unrecognized_witness :
    (lowerCased "wgs84" ≠ "egm84" ∧ lowerCased "wgs84" ≠ "egm96" ∧
        lowerCased "wgs84" ≠ "egm2008") ∧
      StringToGeoidModel "wgs84" = GeoidModel.NONE :=
  ⟨by decide, (StringToGeoidModel_unrecognized "wgs84" (by decide)).1⟩

end GeoidHeight

/-! ## Reference frame: further theorems -/

namespace GeoTransform

open GeoidHeight

/-- C13: for every prior state and every `(lon, lat, height)`, after
`SetGeographicOrigin` the geographic origin is exactly `(lon, lat, height)` (the
function does not read the height model, so no correction is applied in any of its
states), `IsENU` is true so that the mode is `DirectlySetGeographic` and not
`Uninitialized`, and `EcefToEnuMatrix` is `glm::inverse` of
`CalcEnuToEcefMatrix lon lat height`. -/
theorem SetGeographicOrigin_sets_origin (s : GeoTransform) (lon lat height : ℝ) :
    (SetGeographicOrigin s lon lat height).GeoOriginLon = lon ∧
      (SetGeographicOrigin s lon lat height).GeoOriginLat = lat ∧
      (SetGeographicOrigin s lon lat height).GeoOriginHeight = height ∧
      (SetGeographicOrigin s lon lat height).IsENU = true ∧
      mode (SetGeographicOrigin s lon lat height) = Mode.DirectlySetGeographic ∧
      mode (SetGeographicOrigin s lon lat height) ≠ Mode.Uninitialized ∧
      (SetGeographicOrigin s lon lat height).EcefToEnuMatrix =
        glm.inverse (CalcEnuToEcefMatrix lon lat height) := by
  have hm : mode (SetGeographicOrigin s lon lat height) = Mode.DirectlySetGeographic := by
    simp [mode, SetGeographicOrigin]
  refine ⟨rfl, rfl, rfl, rfl, hm, ?_, rfl⟩
  rw [hm]
  decide

theorem EnsureThreadTransform_eq_request
    (createCT : SourceCrs → Option OGRCoordinateTransformation) (s : GeoTransform)
    (tid : Nat) :
    EnsureThreadTransform createCT s tid =
      match EnsureThreadTransform_request s tid with
      | none => s
      | some crs =>
        match createCT crs with
        | some poCT => { s with pOgrCT := Function.update s.pOgrCT tid (some poCT) }
        | none => s := by
  unfold EnsureThreadTransform EnsureThreadTransform_request
  split_ifs <;> simp

/-- C14: `EnsureThreadTransform` on thread `tid` leaves the whole state unchanged, for
every behaviour of the transform constructor, and does not reach the constructor call,
whenever the thread already owns a handle, or `GlobalInitialized_` is false, or `IsENU`
is true, or there is no source descriptor (`SourceEPSG_` not positive and `SourceWKT_`
empty). -/
theorem EnsureThreadTransform_noop (s : GeoTransform) (tid : Nat)
    (h : (s.pOgrCT tid).isSome = true ∨ s.GlobalInitialized_ = false ∨ s.IsENU = true ∨
      (s.SourceEPSG_ ≤ 0 ∧ s.SourceWKT_ = "")) :
    (∀ createCT : SourceCrs → Option OGRCoordinateTransformation,
        EnsureThreadTransform createCT s tid = s) ∧
      EnsureThreadTransform_request s tid = none := by
  have hreq : EnsureThreadTransform_request s tid = none := by
    unfold EnsureThreadTransform_request
    rcases h with h | h | h | ⟨h1, h2⟩
    · simp [h]
    · simp [h]
    · simp [h]
    · have h3 : ¬ s.SourceEPSG_ > 0 := not_lt.2 h1
      simp [h3, h2]
  refine ⟨?_, hreq⟩
  intro createCT
  rw [EnsureThreadTransform_eq_request, hreq]

/-- Witness for C14: thread 1 of `sampleOwned` already owns a handle; a constructor
that always succeeds is still not used. -/
theorem EnsureThreadTransform_noop_witness :
    ((sampleOwned.pOgrCT 1).isSome = true ∨ sampleOwned.GlobalInitialized_ = false ∨
        sampleOwned.IsENU = true ∨
        (sampleOwned.SourceEPSG_ ≤ 0 ∧ sampleOwned.SourceWKT_ = "")) ∧
      EnsureThreadTransform (fun _ => some swapCT) sampleOwned 1 = sampleOwned ∧
      EnsureThreadTransform_request sampleOwned 1 = none :=
  ⟨Or.inl rfl,
    (EnsureThreadTransform_noop sampleOwned 1 (Or.inl rfl)).1 (fun _ => some swapCT),
    (EnsureThreadTransform_noop sampleOwned 1 (Or.inl rfl)).2⟩

/-- C17: at longitude 0, latitude 0, height 0, `CartographicToEcef` returns
`(6378137, 0, 0)`, the semi-major axis on the x axis, in exact real arithmetic. -/
theorem CartographicToEcef_equator_origin :
    CartographicToEcef 0 0 0 = ⟨6378137.0, 0, 0⟩ := by
  simp only [CartographicToEcef, zero_mul, zero_div, Real.sin_zero, Real.cos_zero, mul_zero,
    sub_zero]
  norm_num

/-- C20: `SetGeographicOrigin` leaves the raw origin, the source CRS descriptor, the
`GlobalInitialized_` flag and the transform handle of every thread unchanged. -/
theorem SetGeographicOrigin_frame (s : GeoTransform) (lon lat height : ℝ) :
    (SetGeographicOrigin s lon lat height).OriginX = s.OriginX ∧
      (SetGeographicOrigin s lon lat height).OriginY = s.OriginY ∧
      (SetGeographicOrigin s lon lat height).OriginZ = s.OriginZ ∧
      (SetGeographicOrigin s lon lat height).SourceEPSG_ = s.SourceEPSG_ ∧
      (SetGeographicOrigin s lon lat height).SourceWKT_ = s.SourceWKT_ ∧
      (SetGeographicOrigin s lon lat height).GlobalInitialized_ = s.GlobalInitialized_ ∧
      (SetGeographicOrigin s lon lat height).pOgrCT = s.pOgrCT :=
  ⟨rfl, rfl, rfl, rfl, rfl, rfl, rfl⟩

theorem arccos_neg_one_eq_pi : Real.arccos (-1.0) = Real.pi := by
  norm_num [Real.arccos_neg_one]

theorem CalcEnuToEcefMatrix_eq_enuFrame_trig (lon lat height : ℝ) :
    CalcEnuToEcefMatrix lon lat height =
      enuFrame (Real.sin (lon * Real.pi / 180)) (Real.cos (lon * Real.pi / 180))
        (Real.sin (lat * Real.pi / 180)) (Real.cos (lat * Real.pi / 180))
        (CartographicToEcef lon lat height).x (CartographicToEcef lon lat height).y
        (CartographicToEcef lon lat height).z := by
  simp only [CalcEnuToEcefMatrix, CartographicToEcef, enuFrame, arccos_neg_one_eq_pi]
  norm_num

theorem enuFrame_columns (sL cL sP cP x0 y0 z0 : ℝ) :
    column3 (enuFrame sL cL sP cP x0 y0 z0) 0 = ![-sL, cL, 0] ∧
      column3 (enuFrame sL cL sP cP x0 y0 z0) 1 = ![-sP * cL, -sP * sL, cP] ∧
      column3 (enuFrame sL cL sP cP x0 y0 z0) 2 = ![cP * cL, cP * sL, sP] ∧
      block3 (enuFrame sL cL sP cP x0 y0 z0) =
        !![-sL, -sP * cL, cP * cL; cL, -sP * sL, cP * sL; 0, cP, sP] := by
  simp [column3, block3, enuFrame]

theorem enuFrame_orthonormal (sL cL sP cP x0 y0 z0 : ℝ) (hL : sL ^ 2 + cL ^ 2 = 1)
    (hP : sP ^ 2 + cP ^ 2 = 1) :
    (Matrix.dotProduct (column3 (enuFrame sL cL sP cP x0 y0 z0) 0)
          (column3 (enuFrame sL cL sP cP x0 y0 z0) 0) = 1 ∧
        Matrix.dotProduct (column3 (enuFrame sL cL sP cP x0 y0 z0) 1)
          (column3 (enuFrame sL cL sP cP x0 y0 z0) 1) = 1 ∧
        Matrix.dotProduct (column3 (enuFrame sL cL sP cP x0 y0 z0) 2)
          (column3 (enuFrame sL cL sP cP x0 y0 z0) 2) = 1) ∧
      (Matrix.dotProduct (column3 (enuFrame sL cL sP cP x0 y0 z0) 0)
          (column3 (enuFrame sL cL sP cP x0 y0 z0) 1) = 0 ∧
        Matrix.dotProduct (column3 (enuFrame sL cL sP cP x0 y0 z0) 0)
          (column3 (enuFrame sL cL sP cP x0 y0 z0) 2) = 0 ∧
        Matrix.dotProduct (column3 (enuFrame sL cL sP cP x0 y0 z0) 1)
          (column3 (enuFrame sL cL sP cP x0 y0 z0) 2) = 0) ∧
      crossProduct (column3 (enuFrame sL cL sP cP x0 y0 z0) 0)
          (column3 (enuFrame sL cL sP cP x0 y0 z0) 1) =
        column3 (enuFrame sL cL sP cP x0 y0 z0) 2 ∧
      (block3 (enuFrame sL cL sP cP x0 y0 z0)).transpose *
          block3 (enuFrame sL cL sP cP x0 y0 z0) = 1 ∧
      (block3 (enuFrame sL cL sP cP x0 y0 z0)).det = 1 := by
  obtain ⟨hE, hN, hU, hB⟩ := enuFrame_columns sL cL sP cP x0 y0 z0
  rw [hE, hN, hU, hB]
  refine ⟨⟨?_, ?_, ?_⟩, ⟨?_, ?_, ?_⟩, ?_, ?_, ?_⟩
  · simp [Matrix.dotProduct, Fin.sum_univ_three]
    linear_combination hL
  · simp [Matrix.dotProduct, Fin.sum_univ_three]
    linear_combination sP ^ 2 * hL + hP
  · simp [Matrix.dotProduct, Fin.sum_univ_three]
    linear_combination cP ^ 2 * hL + hP
  · simp [Matrix.dotProduct, Fin.sum_univ_three]
    ring
  · simp [Matrix.dotProduct, Fin.sum_univ_three]
    ring
  · simp [Matrix.dotProduct, Fin.sum_univ_three]
    linear_combination (-(sP * cP)) * hL
  · rw [cross_apply]
    ext i
    fin_cases i
    · simp
      ring
    · simp
      ring
    · simp
      linear_combination sP * hL
  · have hT : (!![-sL, -sP * cL, cP * cL; cL, -sP * sL, cP * sL; 0, cP, sP]).transpose =
        !![-sL, cL, 0; -sP * cL, -sP * sL, cP; cP * cL, cP * sL, sP] := by
      ext i j
      fin_cases i <;> fin_cases j <;> rfl
    rw [hT]
    ext i j
    fin_cases i <;> fin_cases j <;> simp [Matrix.mul_apply, Fin.sum_univ_three]
    · linear_combination hL
    · ring
    · ring
    · ring
    · linear_combination sP ^ 2 * hL + hP
    · linear_combination (-(sP * cP)) * hL
    · ring
    · linear_combination (-(sP * cP)) * hL
    · linear_combination cP ^ 2 * hL + hP
  · rw [Matrix.det_fin_three]
    simp
    linear_combination (sP ^ 2 + cP ^ 2) * hL + hP


/-- C18: for every longitude, latitude and height, the first three columns of
`CalcEnuToEcefMatrix` have fourth component 0 and the bottom row is `(0, 0, 0, 1)`;
the columns `East`, `North`, `Up` are the vectors written in the source (angles in
radians), they have unit length, are pairwise orthogonal and right-handed
(`East x North = Up`), so the 3x3 block is a rotation (its transpose is its inverse,
its determinant is 1), and the block does not depend on the height. In exact real
arithmetic. -/
theorem CalcEnuToEcefMatrix_columns_rotation (lon lat height : ℝ) :
    (CalcEnuToEcefMatrix lon lat height 3 0 = 0 ∧ CalcEnuToEcefMatrix lon lat height 3 1 = 0 ∧
        CalcEnuToEcefMatrix lon lat height 3 2 = 0 ∧
        CalcEnuToEcefMatrix lon lat height 3 3 = 1) ∧
      (East lon lat height =
          ![-Real.sin (lon * Real.pi / 180), Real.cos (lon * Real.pi / 180), 0] ∧
        North lon lat height =
          ![-Real.sin (lat * Real.pi / 180) * Real.cos (lon * Real.pi / 180),
            -Real.sin (lat * Real.pi / 180) * Real.sin (lon * Real.pi / 180),
            Real.cos (lat * Real.pi / 180)] ∧
        Up lon lat height =
          ![Real.cos (lat * Real.pi / 180) * Real.cos (lon * Real.pi / 180),
            Real.cos (lat * Real.pi / 180) * Real.sin (lon * Real.pi / 180),
            Real.sin (lat * Real.pi / 180)]) ∧
      (Matrix.dotProduct (East lon lat height) (East lon lat height) = 1 ∧
        Matrix.dotProduct (North lon lat height) (North lon lat height) = 1 ∧
        Matrix.dotProduct (Up lon lat height) (Up lon lat height) = 1) ∧
      (Matrix.dotProduct (East lon lat height) (North lon lat height) = 0 ∧
        Matrix.dotProduct (East lon lat height) (Up lon lat height) = 0 ∧
        Matrix.dotProduct (North lon lat height) (Up lon lat height) = 0) ∧
      crossProduct (East lon lat height) (North lon lat height) = Up lon lat height ∧
      (block3 (CalcEnuToEcefMatrix lon lat height)).transpose *
          block3 (CalcEnuToEcefMatrix lon lat height) = 1 ∧
      (block3 (CalcEnuToEcefMatrix lon lat height)).det = 1 ∧
      ∀ height2 : ℝ, block3 (CalcEnuToEcefMatrix lon lat height2) =
        block3 (CalcEnuToEcefMatrix lon lat height) := by
  have hL := Real.sin_sq_add_cos_sq (lon * Real.pi / 180)
  have hP := Real.sin_sq_add_cos_sq (lat * Real.pi / 180)
  have hM := CalcEnuToEcefMatrix_eq_enuFrame_trig lon lat height
  obtain ⟨hE, hN, hU, hB⟩ := enuFrame_columns (Real.sin (lon * Real.pi / 180))
    (Real.cos (lon * Real.pi / 180)) (Real.sin (lat * Real.pi / 180))
    (Real.cos (lat * Real.pi / 180)) (CartographicToEcef lon lat height).x
    (CartographicToEcef lon lat height).y (CartographicToEcef lon lat height).z
  obtain ⟨hunit, horth, hcross, hrot, hdet⟩ :=
    enuFrame_orthonormal (Real.sin (lon * Real.pi / 180))
      (Real.cos (lon * Real.pi / 180)) (Real.sin (lat * Real.pi / 180))
      (Real.cos (lat * Real.pi / 180)) (CartographicToEcef lon lat height).x
      (CartographicToEcef lon lat height).y (CartographicToEcef lon lat height).z hL hP
  refine ⟨?_, ?_, ?_, ?_, ?_, ?_, ?_, ?_⟩
  · rw [hM]
    exact ⟨rfl, rfl, rfl, rfl⟩
  · simp only [East, North, Up, hM]
    exact ⟨hE, hN, hU⟩
  · simp only [East, North, Up, hM]
    exact hunit
  · simp only [East, North, Up, hM]
    exact horth
  · simp only [East, North, Up, hM]
    exact hcross
  · rw [hM]
    exact hrot
  · rw [hM]
    exact hdet
  · intro height2
    rw [hM, CalcEnuToEcefMatrix_eq_enuFrame_trig lon lat height2, hB]
    exact (enuFrame_columns _ _ _ _ _ _ _).2.2.2

theorem ellipsoid_equation (a f s c sL cL r : ℝ) (ha : a ≠ 0) (hf : 1 - f ≠ 0)
    (hr0 : r ≠ 0) (hr : r ^ 2 = 1 - f * (2 - f) * s * s) (hL : sL ^ 2 + cL ^ 2 = 1)
    (hP : s ^ 2 + c ^ 2 = 1) :
    ((a / r + 0) * c * cL) ^ 2 / a ^ 2 + ((a / r + 0) * c * sL) ^ 2 / a ^ 2 +
        ((a / r * (1 - f * (2 - f)) + 0) * s) ^ 2 / (a * (1 - f)) ^ 2 = 1 := by
  have h1 : ((a / r + 0) * c * cL) ^ 2 / a ^ 2 = c ^ 2 * cL ^ 2 / r ^ 2 := by
    field_simp
    ring
  have h2 : ((a / r + 0) * c * sL) ^ 2 / a ^ 2 = c ^ 2 * sL ^ 2 / r ^ 2 := by
    field_simp
    ring
  have h3 : ((a / r * (1 - f * (2 - f)) + 0) * s) ^ 2 / (a * (1 - f)) ^ 2 =
      (1 - f) ^ 2 * s ^ 2 / r ^ 2 := by
    field_simp
    ring
  rw [h1, h2, h3, ← add_div, ← add_div, div_eq_one_iff_eq (pow_ne_zero 2 hr0), hr]
  linear_combination c ^ 2 * hL + hP

/-- C19: for every longitude and latitude, the point `CartographicToEcef lon lat 0`
satisfies the WGS84 ellipsoid equation `x^2/a^2 + y^2/a^2 + z^2/b^2 = 1` with
`a = 6378137` and `b = a (1 - f)`, `f = 1 / 298.257223563`; and for every height `h`,
`CartographicToEcef lon lat h` is that point plus `h` times `Up` (the third column of
`CalcEnuToEcefMatrix`, at any height). In exact real arithmetic. -/
theorem CartographicToEcef_on_ellipsoid (lon lat : ℝ) :
    (CartographicToEcef lon lat 0).x ^ 2 / 6378137 ^ 2 +
        (CartographicToEcef lon lat 0).y ^ 2 / 6378137 ^ 2 +
        (CartographicToEcef lon lat 0).z ^ 2 / (6378137 * (1 - 1 / 298.257223563)) ^ 2 = 1 ∧
      ∀ h height2 : ℝ,
        CartographicToEcef lon lat h =
          ⟨(CartographicToEcef lon lat 0).x + h * Up lon lat height2 0,
            (CartographicToEcef lon lat 0).y + h * Up lon lat height2 1,
            (CartographicToEcef lon lat 0).z + h * Up lon lat height2 2⟩ := by
  constructor
  · have hs := Real.sin_sq_le_one (lat * Real.arccos (-1.0) / 180.0)
    have hD : (0 : ℝ) < 1.0 - 1.0 / 298.257223563 * (2.0 - 1.0 / 298.257223563) *
        Real.sin (lat * Real.arccos (-1.0) / 180.0) *
        Real.sin (lat * Real.arccos (-1.0) / 180.0) := by
      nlinarith
    have hr0 := (Real.sqrt_pos.2 hD).ne'
    have hr := Real.sq_sqrt hD.le
    have key := ellipsoid_equation 6378137 (1 / 298.257223563)
      (Real.sin (lat * Real.arccos (-1.0) / 180.0))
      (Real.cos (lat * Real.arccos (-1.0) / 180.0))
      (Real.sin (lon * Real.arccos (-1.0) / 180.0))
      (Real.cos (lon * Real.arccos (-1.0) / 180.0)) _ (by norm_num) (by norm_num) hr0
      (by rw [hr]; norm_num) (Real.sin_sq_add_cos_sq _) (Real.sin_sq_add_cos_sq _)
    simp only [CartographicToEcef]
    norm_num at key ⊢
    exact key
  · intro h height2
    simp only [CartographicToEcef, Up, column3, CalcEnuToEcefMatrix]
    simp
    refine ⟨?_, ?_, ?_⟩ <;> ring

end GeoTransform
